import Mathlib

/-!
Shallow embedding of the serverless image-processing repository.

The processing pipeline (Go Lambda, src/unnamed/part_005) and the
query/signing API (src/api/main.go) are translated into pure Lean
functions. External AWS services, the imaging library and the system
clock are oracle fields of an environment record; the observable
effects of a run (download calls, object-store puts, metadata puts)
are threaded through an explicit world record, appended in the order
the Go code performs them.

Bytes are modelled as lists of naturals, confidences as rationals
(the repository only copies confidence values, never computes with
them), and Go errors as the error side of an Except.
-/

/-- Byte buffers, as in the Go slices of bytes. -/
abbrev Bytes := List Nat

/-- A decoded raster image as seen through the imaging library:
dimensions plus abstract pixel data. -/
structure GoImage where
  width : Nat
  height : Nat
  pixels : List Nat
deriving DecidableEq

/-- A label of the Rekognition response (aws types.Label after
aws.ToString and aws.ToFloat32). -/
structure RekLabel where
  name : String
  confidence : Rat
deriving DecidableEq

/-- LabelInfo of src/unnamed/part_005 lines 36-39: a detected label,
the shape stored in DynamoDB. -/
structure LabelInfo where
  name : String
  confidence : Rat
deriving DecidableEq

/-- The rekognition.DetectLabelsInput built in detectLabels,
src/unnamed/part_005 lines 203-209. -/
structure DetectLabelsInput where
  imageBytes : Bytes
  maxLabels : Nat
  minConfidence : Rat
deriving DecidableEq

/-- ImageMetadata of src/unnamed/part_005 lines 26-33: the DynamoDB
record for a processed image. -/
structure ImageMetadata where
  imageKey : String
  bucketName : String
  imageSize : Int
  processedAt : String
  detectedLabels : List LabelInfo
  thumbnailKey : String
deriving DecidableEq

/-- One S3 object-created notification, flattening
events.S3EventRecord to the three fields the pipeline reads. -/
structure S3EventRecord where
  bucket : String
  key : String
  size : Int
deriving DecidableEq

/-- The pure image codec functions of the imaging and image/jpeg
libraries, abstracted: a decoder, a pixel resampler and a JPEG
encoder (whose first argument is the options value, none meaning
library default quality as in jpeg.Encode with nil options). -/
structure Codec where
  decode : Bytes → Except String GoImage
  resizePixels : GoImage → Nat → Nat → List Nat
  jpegEncodeBytes : Option Nat → GoImage → Except String Bytes

/-- Modelled from the spec: the imaging library Resize function is
not part of this repository; per the spec, a zero height argument
derives the height to preserve aspect ratio, as
round(originalHeight * width / originalWidth). Pixel data stays
abstract through the codec resampler. -/
def imagingResize (c : Codec) (img : GoImage) (w h : Nat) : GoImage :=
  let h2 := if h = 0 then (2 * img.height * w + img.width) / (2 * img.width) else h
  { width := w, height := h2, pixels := c.resizePixels img w h2 }

/-- The external world of one pipeline invocation: codec functions,
AWS service oracles and the clock. Oracles return the outcome the
external service would give for a call. -/
structure Env where
  codec : Codec
  getObject : String → String → Except String Bytes
  rekognition : DetectLabelsInput → Except String (List RekLabel)
  putObjectResult : String → String → Bytes → String → Except String Unit
  marshalMap : ImageMetadata → Except String Unit
  putItemResult : ImageMetadata → Except String Unit
  nowRFC3339 : String

/-- One recorded S3 PutObject call. -/
structure S3Put where
  bucket : String
  key : String
  body : Bytes
  contentType : String
deriving DecidableEq

/-- Observable effect trace of a pipeline run: S3 GetObject calls,
S3 PutObject calls and DynamoDB PutItem calls, each appended when
the Go code issues the call. -/
structure World where
  downloads : List (String × String)
  s3Puts : List S3Put
  metaPuts : List ImageMetadata
deriving DecidableEq

/-- The empty effect trace. -/
def emptyWorld : World := { downloads := [], s3Puts := [], metaPuts := [] }

/-- downloadImage, src/unnamed/part_005 lines 181-199: fetch the
object bytes from S3. The GetObject call is recorded; read errors of
the body are folded into the oracle outcome. -/
def downloadImage (env : Env) (w : World) (bucket key : String) :
    Except String Bytes × World :=
  let w2 := { w with downloads := w.downloads ++ [(bucket, key)] }
  match env.getObject bucket key with
  | .error e => (.error ("S3 GetObject failed: " ++ e), w2)
  | .ok b => (.ok b, w2)

/-- detectLabels, src/unnamed/part_005 lines 202-231: build a
DetectLabels request with MaxLabels 10 and MinConfidence 70, then
copy the response labels in order into LabelInfo values. -/
def detectLabels (env : Env) (imageBytes : Bytes) :
    Except String (List LabelInfo) :=
  let input : DetectLabelsInput :=
    { imageBytes := imageBytes, maxLabels := 10, minConfidence := 70 }
  match env.rekognition input with
  | .error e => .error ("Rekognition DetectLabels failed: " ++ e)
  | .ok ls => .ok (ls.map (fun l => { name := l.name, confidence := l.confidence }))

/-- The pure byte computation of generateAndUploadThumbnail,
src/unnamed/part_005 lines 264-278: decode, resize to width 300 with
height 0 (preserve aspect), encode as JPEG with nil options. -/
def thumbnailBytesOf (c : Codec) (imageBytes : Bytes) : Except String Bytes :=
  match c.decode imageBytes with
  | .error e => .error ("failed to decode image: " ++ e)
  | .ok img =>
    let thumbnail := imagingResize c img 300 0
    match c.jpegEncodeBytes none thumbnail with
    | .error e => .error ("failed to encode thumbnail: " ++ e)
    | .ok buf => .ok buf

/-- generateAndUploadThumbnail, src/unnamed/part_005 lines 263-295:
compute the thumbnail bytes, then upload them under the key
thumbnails/ ++ key with content type image/jpeg and return that
key. -/
def generateAndUploadThumbnail (env : Env) (w : World)
    (bucket key : String) (imageBytes : Bytes) :
    Except String String × World :=
  match thumbnailBytesOf env.codec imageBytes with
  | .error e => (.error e, w)
  | .ok buf =>
    let thumbnailKey := "thumbnails/" ++ key
    let put : S3Put :=
      { bucket := bucket, key := thumbnailKey, body := buf,
        contentType := "image/jpeg" }
    let w2 := { w with s3Puts := w.s3Puts ++ [put] }
    match env.putObjectResult bucket thumbnailKey buf "image/jpeg" with
    | .error e => (.error ("failed to upload thumbnail to S3: " ++ e), w2)
    | .ok _ => (.ok thumbnailKey, w2)

/-- saveMetadata, src/unnamed/part_005 lines 234-260: build the full
ImageMetadata record with processedAt from the clock, marshal it and
put it to DynamoDB in a single PutItem call. -/
def saveMetadata (env : Env) (w : World) (bucket key : String)
    (size : Int) (labels : List LabelInfo) (thumbnailKey : String) :
    Except String Unit × World :=
  let metadata : ImageMetadata :=
    { imageKey := key, bucketName := bucket, imageSize := size,
      processedAt := env.nowRFC3339, detectedLabels := labels,
      thumbnailKey := thumbnailKey }
  match env.marshalMap metadata with
  | .error e => (.error ("failed to marshal metadata: " ++ e), w)
  | .ok _ =>
    let w2 := { w with metaPuts := w.metaPuts ++ [metadata] }
    match env.putItemResult metadata with
    | .error e => (.error ("DynamoDB PutItem failed: " ++ e), w2)
    | .ok _ => (.ok (), w2)

/-- processS3Record, src/unnamed/part_005 lines 97-178: download,
detect labels, generate and upload a thumbnail, then save the
metadata record; each failing step aborts with a wrapped error. -/
def processS3Record (env : Env) (w : World) (record : S3EventRecord) :
    Except String Unit × World :=
  let bucket := record.bucket
  let key := record.key
  let size := record.size
  match downloadImage env w bucket key with
  | (.error e, w1) => (.error ("failed to download image: " ++ e), w1)
  | (.ok imageBytes, w1) =>
    match detectLabels env imageBytes with
    | .error e => (.error ("failed to detect labels: " ++ e), w1)
    | .ok labels =>
      match generateAndUploadThumbnail env w1 bucket key imageBytes with
      | (.error e, w2) => (.error ("failed to generate thumbnail: " ++ e), w2)
      | (.ok thumbnailKey, w2) =>
        match saveMetadata env w2 bucket key size labels thumbnailKey with
        | (.error e, w3) => (.error ("failed to save metadata: " ++ e), w3)
        | (.ok _, w3) => (.ok (), w3)

/-- HandleS3Event, src/unnamed/part_005 lines 79-94: process the
records of the batch in order; the first failing record makes the
whole invocation return a single wrapped error at once. -/
def HandleS3Event (env : Env) (w : World) :
    List S3EventRecord → Except String Unit × World
  | [] => (.ok (), w)
  | r :: rs =>
    match processS3Record env w r with
    | (.error e, w1) =>
      (.error ("failed to process record " ++ r.bucket ++ "/" ++ r.key ++ ": " ++ e), w1)
    | (.ok _, w1) => HandleS3Event env w1 rs

/-- One list item as unmarshalled from the DynamoDB scan in
handleGetImages: the dynamic map is narrowed to the fields the Go
code reads with string type assertions; a none field stands for an
attribute that is absent or not a string. -/
structure DBItem where
  image_key : Option String
  thumbnail_key : Option String
  url : Option String
deriving DecidableEq

/-- The string value a Go type assertion on image_key yields: the
stored string, or the empty string when absent. -/
def itemKeyStr (it : DBItem) : String := it.image_key.getD ""

/-- The ordering the in-memory sort of handleGetImages establishes,
src/api/main.go lines 143-147: descending by image_key. Go compares
strings byte-wise, modelled as the lexicographic order on the
character lists (identical for the ASCII keys of this system). -/
def sortRel (a b : DBItem) : Prop := (itemKeyStr b).data ≤ (itemKeyStr a).data

instance : DecidableRel sortRel :=
  fun a b => inferInstanceAs (Decidable ((itemKeyStr b).data ≤ (itemKeyStr a).data))

instance : IsTotal DBItem sortRel :=
  ⟨fun a b => le_total (itemKeyStr b).data (itemKeyStr a).data⟩

instance : IsTrans DBItem sortRel :=
  ⟨fun _ _ _ hab hbc => le_trans hbc hab⟩

/-- Accumulate the decimal value of a digit run; none on the first
non-digit character. -/
def goDigits : List Char → Nat → Option Nat
  | [], acc => some acc
  | c :: cs, acc =>
    if c.isDigit then goDigits cs (10 * acc + (c.toNat - 48)) else none

/-- Value of a non-empty all-digit character run. -/
def goAtoiCore (cs : List Char) : Option Nat :=
  match cs with
  | [] => none
  | _ => goDigits cs 0

/-- strconv.Atoi: an optional sign followed by one or more decimal
digits (64-bit overflow, which Atoi rejects, is out of the range this
embedding exercises). -/
def goAtoi (s : String) : Option Int :=
  match s.data with
  | [] => none
  | c :: rest =>
    if c = '-' then (goAtoiCore rest).map (fun n => -(n : Int))
    else if c = '+' then (goAtoiCore rest).map (fun n => (n : Int))
    else (goAtoiCore (c :: rest)).map (fun n => (n : Int))

/-- The query-parameter handling of handleGetImages, src/api/main.go
lines 150-162: keep the default unless the raw parameter is present,
parses as an integer and is strictly positive. -/
def paramPositive (p : Option String) (dflt : Nat) : Nat :=
  match p with
  | none => dflt
  | some s =>
    if s = "" then dflt
    else
      match goAtoi s with
      | some v => if v > 0 then v.toNat else dflt
      | none => dflt

/-- The page and limit query string parameters of a list request; a
none value stands for an absent map entry (which Go reads as the
empty string). -/
structure QueryParams where
  page : Option String
  limit : Option String
deriving DecidableEq

/-- Environment of the query service list handler: the combined
outcome of the DynamoDB scan and unmarshal, and the presigner oracle
taking a key and an expiry in seconds. -/
structure ListEnv where
  scanResult : Except String (List DBItem)
  presignGet : String → Nat → Except String String

/-- Outcome of handleGetImages: an error response with its status
code, or the fields of the JSON success body. -/
inductive GetImagesResult where
  | failure (statusCode : Nat) (error : String)
  | success (items : List DBItem) (totalCount : Nat) (page : Nat)
      (limit : Nat) (hasMore : Bool)
deriving DecidableEq

/-- The per-item signing loop body of handleGetImages, src/api/main.go
lines 180-201: prefer a present non-empty thumbnail_key, else a
present non-empty image_key; when a key was found, attach the signed
URL with a one hour expiry on success and leave the item unchanged on
failure (the error is only logged). -/
def signItem (env : ListEnv) (it : DBItem) : DBItem :=
  let key : String :=
    if it.thumbnail_key.getD "" ≠ "" then it.thumbnail_key.getD ""
    else if it.image_key.getD "" ≠ "" then it.image_key.getD ""
    else ""
  if key ≠ "" then
    match env.presignGet key 3600 with
    | .ok url => { it with url := some url }
    | .error _ => it
  else it

/-- handleGetImages, src/api/main.go lines 115-216: scan, sort by
image_key descending, slice the requested page in memory, sign each
paged item, and answer with items, total count, echoed page and
limit, and the hasMore flag. Scan and unmarshal failures are folded
into the one scan oracle; the unstable library sort of Go is
modelled by insertion sort with the comparison of the source (for
items with equal keys Go leaves the relative order unspecified and
the model fixes the stable one). -/
def handleGetImages (env : ListEnv) (qp : QueryParams) : GetImagesResult :=
  match env.scanResult with
  | .error _ => .failure 500 "Failed to fetch images"
  | .ok itemsRaw =>
    let items := List.insertionSort sortRel itemsRaw
    let limit := paramPositive qp.limit 10
    let page := paramPositive qp.page 1
    let totalItems := items.length
    let start := (page - 1) * limit
    let endIdx := start + limit
    let (pagedItems, endIdx2) :=
      if start < totalItems then
        let e2 := if endIdx > totalItems then totalItems else endIdx
        ((items.drop start).take (e2 - start), e2)
      else (([] : List DBItem), endIdx)
    let signed := pagedItems.map (signItem env)
    .success signed totalItems page limit (decide (endIdx2 < totalItems))

/-- UploadRequest of src/api/main.go lines 23-25, as parsed from the
JSON request body. -/
structure UploadRequest where
  contentType : String
deriving DecidableEq

/-- Environment of the upload handler: the PresignPutObject oracle
(key, content type, expiry seconds) and the UnixNano clock. -/
structure UploadEnv where
  presignPut : String → String → Nat → Except String String
  nowUnixNano : Int

/-- One recorded PresignPutObject call of the upload handler. -/
structure PresignPutCall where
  key : String
  contentType : String
  expirySeconds : Nat
deriving DecidableEq

/-- Outcome of handleUpload: an error response with its status code,
or the upload URL and generated key of the success body. -/
inductive UploadResult where
  | failure (statusCode : Nat) (error : String)
  | success (uploadUrl : String) (key : String)
deriving DecidableEq

/-- handleUpload, src/api/main.go lines 218-268, paired with the list
of presign calls it issued. A none body stands for a request whose
JSON failed to unmarshal. The generated key interpolates the UnixNano
clock; the presign expiry is fifteen minutes in seconds. -/
def handleUpload (env : UploadEnv) (body : Option UploadRequest) :
    UploadResult × List PresignPutCall :=
  match body with
  | none => (.failure 400 "Invalid request body", [])
  | some uploadReq =>
    if uploadReq.contentType ≠ "image/jpeg" ∧ uploadReq.contentType ≠ "image/png" then
      (.failure 400 "Only JPEG and PNG images are allowed", [])
    else
      let key := "images/" ++ toString env.nowUnixNano ++ "-image"
      let call : PresignPutCall :=
        { key := key, contentType := uploadReq.contentType,
          expirySeconds := 15 * 60 }
      match env.presignPut key uploadReq.contentType (15 * 60) with
      | .error _ => (.failure 500 "Failed to generate upload URL", [call])
      | .ok url => (.success url key, [call])

/-- A concrete codec on which every step succeeds, for evaluating the
pipeline at specific inputs. -/
def okCodec : Codec :=
  { decode := fun _ => .ok { width := 600, height := 400, pixels := [0] },
    resizePixels := fun _ _ _ => [1],
    jpegEncodeBytes := fun _ _ => .ok [2] }

/-- A concrete environment on which every external call succeeds. -/
def okEnv : Env :=
  { codec := okCodec,
    getObject := fun _ _ => .ok [9],
    rekognition := fun _ => .ok [{ name := "Cat", confidence := 91 }],
    putObjectResult := fun _ _ _ _ => .ok (),
    marshalMap := fun _ => .ok (),
    putItemResult := fun _ => .ok (),
    nowRFC3339 := "2026-01-01T00:00:00Z" }

/-- C1: the claim says a notification whose key starts with the
thumbnail namespace is discarded with no further action and Download
is never called for it. The code has no such guard: on the key
thumbnails/images/1-image, processS3Record performs the S3 GetObject
call, uploads a nested thumbnail under
thumbnails/thumbnails/images/1-image and writes a metadata record
for the thumbnail key, contradicting the claim. -/
theorem c1_no_recursion_guard_in_code :
    (processS3Record okEnv emptyWorld
        { bucket := "b", key := "thumbnails/images/1-image", size := 1 }).2.downloads
      = [("b", "thumbnails/images/1-image")]
    ∧ (processS3Record okEnv emptyWorld
        { bucket := "b", key := "thumbnails/images/1-image", size := 1 }).2.s3Puts.map S3Put.key
      = ["thumbnails/thumbnails/images/1-image"]
    ∧ (processS3Record okEnv emptyWorld
        { bucket := "b", key := "thumbnails/images/1-image", size := 1 }).1 = .ok () := by
  refine ⟨rfl, rfl, rfl⟩

/-- Shared helper: the metadata put of processS3Record happens only
after download, label detection and thumbnail generation and upload
all succeeded; otherwise the metadata store trace is unchanged, and
on success exactly one fully populated record is appended. -/
theorem processS3Record_metaPuts_spec (env : Env) (w : World) (r : S3EventRecord) :
    (processS3Record env w r).2.metaPuts = w.metaPuts ∨
    (∃ bytes labels buf,
      env.getObject r.bucket r.key = .ok bytes ∧
      detectLabels env bytes = .ok labels ∧
      thumbnailBytesOf env.codec bytes = .ok buf ∧
      env.putObjectResult r.bucket ("thumbnails/" ++ r.key) buf "image/jpeg" = .ok () ∧
      (processS3Record env w r).2.metaPuts = w.metaPuts ++
        [{ imageKey := r.key, bucketName := r.bucket, imageSize := r.size,
           processedAt := env.nowRFC3339, detectedLabels := labels,
           thumbnailKey := "thumbnails/" ++ r.key }]) := by
  rcases hg : env.getObject r.bucket r.key with e | bytes
  · left
    simp [processS3Record, downloadImage, hg]
  · rcases hd : detectLabels env bytes with e | labels
    · left
      simp [processS3Record, downloadImage, hg, hd]
    · rcases ht : thumbnailBytesOf env.codec bytes with e | buf
      · left
        simp [processS3Record, downloadImage, generateAndUploadThumbnail, hg, hd, ht]
      · rcases hp : env.putObjectResult r.bucket ("thumbnails/" ++ r.key) buf "image/jpeg"
          with e | u
        · left
          simp [processS3Record, downloadImage, generateAndUploadThumbnail, hg, hd, ht, hp]
        · cases u
          rcases hm : env.marshalMap
              { imageKey := r.key, bucketName := r.bucket, imageSize := r.size,
                processedAt := env.nowRFC3339, detectedLabels := labels,
                thumbnailKey := "thumbnails/" ++ r.key } with e | u2
          · left
            simp [processS3Record, downloadImage, generateAndUploadThumbnail,
              saveMetadata, hg, hd, ht, hp, hm]
          · right
            refine ⟨bytes, labels, buf, rfl, hd, ht, hp, ?_⟩
            cases u2
            rcases hq : env.putItemResult
                { imageKey := r.key, bucketName := r.bucket, imageSize := r.size,
                  processedAt := env.nowRFC3339, detectedLabels := labels,
                  thumbnailKey := "thumbnails/" ++ r.key } with e | u3
            · simp [processS3Record, downloadImage, generateAndUploadThumbnail,
                saveMetadata, hg, hd, ht, hp, hm, hq]
            · cases u3
              simp [processS3Record, downloadImage, generateAndUploadThumbnail,
                saveMetadata, hg, hd, ht, hp, hm, hq]

/-- C3: for every notification, the metadata record put is executed
only after download, label detection and thumbnail generation and
upload have all succeeded; if any of those steps fails the metadata
store trace is unchanged, and on success the record is written fully
populated by one atomic put. -/
theorem c3_metadata_put_only_after_success (env : Env) (w : World) (r : S3EventRecord) :
    (processS3Record env w r).2.metaPuts = w.metaPuts ∨
    (∃ bytes labels buf,
      env.getObject r.bucket r.key = .ok bytes ∧
      detectLabels env bytes = .ok labels ∧
      thumbnailBytesOf env.codec bytes = .ok buf ∧
      env.putObjectResult r.bucket ("thumbnails/" ++ r.key) buf "image/jpeg" = .ok () ∧
      (processS3Record env w r).2.metaPuts = w.metaPuts ++
        [{ imageKey := r.key, bucketName := r.bucket, imageSize := r.size,
           processedAt := env.nowRFC3339, detectedLabels := labels,
           thumbnailKey := "thumbnails/" ++ r.key }]) :=
  processS3Record_metaPuts_spec env w r

/-- Position of the first notification of the batch whose processing
fails when the batch is handled sequentially from the given world;
none when every notification processes successfully. -/
def firstFailIdx (env : Env) : World → List S3EventRecord → Option Nat
  | _, [] => none
  | w, r :: rs =>
    match processS3Record env w r with
    | (.error _, _) => some 0
    | (.ok _, w1) => (firstFailIdx env w1 rs).map (· + 1)

/-- C4: the batch handler processes notifications one at a time in
delivery order; with no failing notification it returns ok, and at
the first failing notification it returns a single error for the
whole batch and behaves exactly like the batch truncated right after
the failure, so later notifications are never processed. -/
theorem c4_batch_stops_at_first_failure (env : Env) (w : World)
    (records : List S3EventRecord) :
    (firstFailIdx env w records = none → (HandleS3Event env w records).1 = .ok ()) ∧
    (∀ k, firstFailIdx env w records = some k →
      (∃ e, (HandleS3Event env w records).1 = .error e) ∧
      HandleS3Event env w records = HandleS3Event env w (records.take (k + 1))) := by
  induction records generalizing w with
  | nil =>
    refine ⟨fun _ => rfl, fun k hk => ?_⟩
    simp [firstFailIdx] at hk
  | cons r rs ih =>
    rcases hp : processS3Record env w r with ⟨res, w1⟩
    cases res with
    | error e =>
      refine ⟨fun h => ?_, fun k hk => ?_⟩
      · simp [firstFailIdx, hp] at h
      · simp [firstFailIdx, hp] at hk
        subst hk
        refine ⟨⟨"failed to process record " ++ r.bucket ++ "/" ++ r.key ++ ": " ++ e, ?_⟩, ?_⟩
        · simp [HandleS3Event, hp]
        · simp [HandleS3Event, hp]
    | ok u =>
      cases u
      refine ⟨fun h => ?_, fun k hk => ?_⟩
      · simp [firstFailIdx, hp] at h
        have hok := (ih w1).1 h
        simp [HandleS3Event, hp, hok]
      · simp [firstFailIdx, hp] at hk
        obtain ⟨k0, hk0, rfl⟩ := hk
        obtain ⟨⟨e, he⟩, heq⟩ := (ih w1).2 k0 hk0
        refine ⟨⟨e, ?_⟩, ?_⟩
        · simp [HandleS3Event, hp]
          exact he
        · simp [HandleS3Event, hp]
          exact heq

/-- Success normal form of handleGetImages: under a successful scan
the handler answers with the limit-sized slice of the descending
sorted items starting at (page - 1) * limit, each item signed, the
total count, the echoed page and limit, and a hasMore flag testing
the end index clamped to the total against the total. -/
theorem handleGetImages_ok (env : ListEnv) (qp : QueryParams) (itemsRaw : List DBItem)
    (h : env.scanResult = .ok itemsRaw) :
    handleGetImages env qp =
      .success
        ((((List.insertionSort sortRel itemsRaw).drop
              ((paramPositive qp.page 1 - 1) * paramPositive qp.limit 10)).take
            (paramPositive qp.limit 10)).map (signItem env))
        itemsRaw.length (paramPositive qp.page 1) (paramPositive qp.limit 10)
        (decide (min ((paramPositive qp.page 1 - 1) * paramPositive qp.limit 10
            + paramPositive qp.limit 10) itemsRaw.length < itemsRaw.length)) := by
  have hlen : (List.insertionSort sortRel itemsRaw).length = itemsRaw.length :=
    (List.perm_insertionSort sortRel itemsRaw).length_eq
  simp only [handleGetImages, h]
  set items := List.insertionSort sortRel itemsRaw with hitems
  set l := paramPositive qp.limit 10 with hl
  set p := paramPositive qp.page 1 with hp
  set start := (p - 1) * l with hstart
  by_cases h1 : start < items.length
  · by_cases h2 : start + l > items.length
    · have he : (if start + l > items.length then items.length else start + l)
          = items.length := if_pos h2
      simp only [if_pos h1, he]
      have hdl : (items.drop start).length = items.length - start := List.length_drop ..
      have htake1 : (items.drop start).take (items.length - start) = items.drop start := by
        rw [← hdl]
        exact List.take_length _
      have htake2 : (items.drop start).take l = items.drop start := by
        apply List.take_of_length_le
        omega
      rw [htake1, htake2, hlen]
      have hb : (decide (itemsRaw.length < itemsRaw.length))
          = (decide (min (start + l) itemsRaw.length < itemsRaw.length)) := by
        rw [decide_eq_decide]
        omega
      rw [hb]
    · have he : (if start + l > items.length then items.length else start + l)
          = start + l := if_neg h2
      simp only [if_pos h1, he]
      have ht : start + l - start = l := by omega
      rw [ht, hlen]
      have hb : (decide (start + l < itemsRaw.length))
          = (decide (min (start + l) itemsRaw.length < itemsRaw.length)) := by
        rw [decide_eq_decide]
        omega
      rw [hb]
  · simp only [if_neg h1]
    have hd : items.drop start = [] := by
      apply List.drop_eq_nil_of_le
      omega
    rw [hd, hlen]
    simp only [List.take_nil, List.map_nil]
    have hb : (decide (start + l < itemsRaw.length))
        = (decide (min (start + l) itemsRaw.length < itemsRaw.length)) := by
      rw [decide_eq_decide]
      omega
    rw [hb]

/-- A concrete environment whose object store fails exactly on the
key bad, for exercising the batch failure policy. -/
def failEnv : Env :=
  { okEnv with getObject := fun _ k => if k = "bad" then .error "boom" else .ok [9] }

/-- A concrete three-record batch whose middle record fails. -/
def batch3 : List S3EventRecord :=
  [{ bucket := "b", key := "images/1-a", size := 1 },
   { bucket := "b", key := "bad", size := 2 },
   { bucket := "b", key := "images/3-c", size := 3 }]

/-- Witness for the batch failure policy at a concrete batch whose
second record fails: the run errors and equals the run of the batch
truncated after the failing record. -/
theorem c4_batch_stops_at_first_failure_witness :
    firstFailIdx failEnv emptyWorld batch3 = some 1 ∧
    ((∃ e, (HandleS3Event failEnv emptyWorld batch3).1 = .error e) ∧
      HandleS3Event failEnv emptyWorld batch3
        = HandleS3Event failEnv emptyWorld (batch3.take 2)) :=
  ⟨by decide,
    (c4_batch_stops_at_first_failure failEnv emptyWorld batch3).2 1 (by decide)⟩

/-- C5: when the image bytes fail to decode the thumbnail step aborts
with an error and performs no upload; otherwise the image is resized
to width 300 with the height derived from the aspect ratio, encoded
as JPEG with default options, uploaded under thumbnails/ ++ key, and
that key is the one returned and stored as the thumbnailKey of any
record the notification writes. -/
theorem c5_thumbnail_generation (env : Env) (w : World) (bucket key : String)
    (bytes : Bytes) :
    (∀ e, env.codec.decode bytes = .error e →
      generateAndUploadThumbnail env w bucket key bytes
        = (.error ("failed to decode image: " ++ e), w)) ∧
    (∀ img, env.codec.decode bytes = .ok img →
      (imagingResize env.codec img 300 0).width = 300 ∧
      (imagingResize env.codec img 300 0).height
        = (2 * img.height * 300 + img.width) / (2 * img.width) ∧
      (∀ buf, env.codec.jpegEncodeBytes none (imagingResize env.codec img 300 0) = .ok buf →
        (generateAndUploadThumbnail env w bucket key bytes).2.s3Puts
          = w.s3Puts
            ++ [{ bucket := bucket, key := ("thumbnails/" ++ key),
                  body := buf, contentType := "image/jpeg" }] ∧
        (env.putObjectResult bucket ("thumbnails/" ++ key) buf "image/jpeg" = .ok () →
          (generateAndUploadThumbnail env w bucket key bytes).1
            = .ok ("thumbnails/" ++ key)))) ∧
    (∀ r : S3EventRecord, ∀ m ∈ (processS3Record env w r).2.metaPuts,
      m ∈ w.metaPuts ∨ m.thumbnailKey = "thumbnails/" ++ r.key) := by
  refine ⟨fun e he => ?_, fun img himg => ?_, fun r m hm => ?_⟩
  · simp [generateAndUploadThumbnail, thumbnailBytesOf, he]
  · refine ⟨rfl, rfl, fun buf hbuf => ?_⟩
    constructor
    · rcases hpr : env.putObjectResult bucket ("thumbnails/" ++ key) buf "image/jpeg"
        with e | u
      · simp [generateAndUploadThumbnail, thumbnailBytesOf, himg, hbuf, hpr]
      · simp [generateAndUploadThumbnail, thumbnailBytesOf, himg, hbuf, hpr]
    · intro hput
      simp [generateAndUploadThumbnail, thumbnailBytesOf, himg, hbuf, hput]
  · rcases processS3Record_metaPuts_spec env w r with hsame | ⟨b2, labels, buf, _, _, _, _, happ⟩
    · rw [hsame] at hm
      exact Or.inl hm
    · rw [happ] at hm
      rcases List.mem_append.mp hm with hin | hone
      · exact Or.inl hin
      · right
        rcases List.mem_singleton.mp hone with rfl
        rfl

/-- A concrete environment whose decoder rejects every input. -/
def badDecodeEnv : Env :=
  { okEnv with codec := { okCodec with decode := fun _ => .error "nope" } }

/-- Witness for the thumbnail step at concrete inputs: a decode
failure aborts with the decode error and leaves the trace unchanged,
and a successful run uploads the encoded bytes under the thumbnails
namespace and returns that key. -/
theorem c5_thumbnail_generation_witness :
    (generateAndUploadThumbnail badDecodeEnv emptyWorld "b" "images/1" [7]
      = (.error "failed to decode image: nope", emptyWorld)) ∧
    ((generateAndUploadThumbnail okEnv emptyWorld "b" "images/1" [7]).2.s3Puts
      = [{ bucket := "b", key := "thumbnails/images/1", body := [2],
           contentType := "image/jpeg" }] ∧
      (generateAndUploadThumbnail okEnv emptyWorld "b" "images/1" [7]).1
        = .ok "thumbnails/images/1") := by
  refine ⟨(c5_thumbnail_generation badDecodeEnv emptyWorld "b" "images/1" [7]).1 "nope" rfl, ?_⟩
  obtain ⟨hs, himpl⟩ :=
    ((c5_thumbnail_generation okEnv emptyWorld "b" "images/1" [7]).2.1
      { width := 600, height := 400, pixels := [0] } rfl).2.2 [2] rfl
  exact ⟨by simpa using hs, himpl rfl⟩

/-- C6: the label detector is always invoked with MaxLabels 10 and
MinConfidence 70, and the labels keep the response order with no
sorting, filtering or truncation by the pipeline: on success the
result is exactly the fieldwise copy of the response list. -/
theorem c6_detect_labels_request_and_order (env : Env) (bytes : Bytes) :
    (∀ e, env.rekognition { imageBytes := bytes, maxLabels := 10, minConfidence := 70 }
        = .error e →
      detectLabels env bytes = .error ("Rekognition DetectLabels failed: " ++ e)) ∧
    (∀ ls, env.rekognition { imageBytes := bytes, maxLabels := 10, minConfidence := 70 }
        = .ok ls →
      detectLabels env bytes
        = .ok (ls.map (fun l => { name := l.name, confidence := l.confidence }))) := by
  constructor
  · intro e he
    simp [detectLabels, he]
  · intro ls hls
    simp [detectLabels, hls]

/-- Witness for the detector call shape at a concrete environment
whose oracle answers a fixed one-label list: the pipeline stores the
copy of that label list in response order. -/
theorem c6_detect_labels_request_and_order_witness :
    detectLabels okEnv [5]
      = .ok [{ name := "Cat", confidence := 91 }] :=
  (c6_detect_labels_request_and_order okEnv [5]).2 [{ name := "Cat", confidence := 91 }] rfl

/-- C7: a content type outside the allow-list yields a 400 response
with no object store call at all; an allowed content type yields
exactly one presign call for the key images/ ++ nano timestamp ++
-image with a fifteen minute expiry, and when signing succeeds the
response carries that key and the signed URL. -/
theorem c7_upload_url_validation (env : UploadEnv) (req : UploadRequest) :
    (req.contentType ≠ "image/jpeg" → req.contentType ≠ "image/png" →
      handleUpload env (some req)
        = (.failure 400 "Only JPEG and PNG images are allowed", [])) ∧
    (req.contentType = "image/jpeg" ∨ req.contentType = "image/png" →
      (handleUpload env (some req)).2
        = [{ key := ("images/" ++ toString env.nowUnixNano ++ "-image"),
             contentType := req.contentType, expirySeconds := 15 * 60 }] ∧
      (∀ url, env.presignPut ("images/" ++ toString env.nowUnixNano ++ "-image")
          req.contentType (15 * 60) = .ok url →
        (handleUpload env (some req)).1
          = .success url ("images/" ++ toString env.nowUnixNano ++ "-image"))) := by
  constructor
  · intro h1 h2
    simp [handleUpload, h1, h2]
  · intro hct
    have hne : ¬ (req.contentType ≠ "image/jpeg" ∧ req.contentType ≠ "image/png") := by
      rcases hct with h | h <;> simp [h]
    constructor
    · rcases hpr : env.presignPut ("images/" ++ toString env.nowUnixNano ++ "-image")
          req.contentType (15 * 60) with e | url
      · simp [handleUpload, hne, hpr]
      · simp [handleUpload, hne, hpr]
    · intro url hurl
      simp [handleUpload, hne, hurl]

/-- A concrete upload environment with a fixed clock and a signer
that echoes the signed key. -/
def uploadEnvOk : UploadEnv :=
  { presignPut := fun k _ _ => .ok ("https://signed/" ++ k),
    nowUnixNano := 1700000000000000000 }

/-- Witness for upload validation at concrete requests: image/bmp is
rejected with no presign call, and image/png receives a ticket for
the generated images/ key with a fifteen minute signing expiry. -/
theorem c7_upload_url_validation_witness :
    (handleUpload uploadEnvOk (some { contentType := "image/bmp" })
      = (.failure 400 "Only JPEG and PNG images are allowed", [])) ∧
    ((handleUpload uploadEnvOk (some { contentType := "image/png" })).2
      = [{ key := "images/1700000000000000000-image", contentType := "image/png",
           expirySeconds := 900 }] ∧
      (handleUpload uploadEnvOk (some { contentType := "image/png" })).1
        = .success "https://signed/images/1700000000000000000-image"
            "images/1700000000000000000-image") := by
  refine ⟨(c7_upload_url_validation uploadEnvOk { contentType := "image/bmp" }).1
      (by decide) (by decide), ?_, ?_⟩
  · have h := ((c7_upload_url_validation uploadEnvOk { contentType := "image/png" }).2
      (Or.inr rfl)).1
    simpa using h
  · exact ((c7_upload_url_validation uploadEnvOk { contentType := "image/png" }).2
      (Or.inr rfl)).2 "https://signed/images/1700000000000000000-image" rfl

/-- The display key of a list item: the thumbnail key when present
and non-empty, otherwise the image key (empty when both are
missing or empty). -/
def displayKeyOf (it : DBItem) : String :=
  if it.thumbnail_key.getD "" ≠ "" then it.thumbnail_key.getD ""
  else it.image_key.getD ""

/-- The signing loop body selects exactly the display key: when it is
non-empty the item gets the signed URL on success and stays unchanged
on failure, and when it is empty no signing is attempted. -/
theorem signItem_eq (env : ListEnv) (it : DBItem) :
    signItem env it =
      if displayKeyOf it ≠ "" then
        match env.presignGet (displayKeyOf it) 3600 with
        | .ok url => { it with url := some url }
        | .error _ => it
      else it := by
  by_cases ht : it.thumbnail_key.getD "" = ""
  · by_cases hi : it.image_key.getD "" = ""
    · simp [signItem, displayKeyOf, ht, hi]
    · simp [signItem, displayKeyOf, ht, hi]
  · simp [signItem, displayKeyOf, ht]

/-- C8: every paged item of a successful List response is included,
as the signed copy of a scanned item, regardless of per-item signing
outcomes; the signed GET URL uses a 3600 second expiry and is issued
for the thumbnail key when present and non-empty, otherwise for the
image key, and a signing failure leaves the item in the response
without a url. -/
theorem c8_list_item_signing (env : ListEnv) (qp : QueryParams)
    (itemsRaw : List DBItem) (hscan : env.scanResult = .ok itemsRaw) :
    (∃ paged : List DBItem, (∀ x ∈ paged, x ∈ itemsRaw) ∧ ∃ hm,
      handleGetImages env qp = .success (paged.map (signItem env)) itemsRaw.length
        (paramPositive qp.page 1) (paramPositive qp.limit 10) hm) ∧
    (∀ it : DBItem,
      (displayKeyOf it ≠ "" →
        (∀ url, env.presignGet (displayKeyOf it) 3600 = .ok url →
          signItem env it = { it with url := some url }) ∧
        (∀ e, env.presignGet (displayKeyOf it) 3600 = .error e →
          signItem env it = it)) ∧
      (displayKeyOf it = "" → signItem env it = it)) := by
  constructor
  · refine ⟨((List.insertionSort sortRel itemsRaw).drop
        ((paramPositive qp.page 1 - 1) * paramPositive qp.limit 10)).take
        (paramPositive qp.limit 10), fun x hx => ?_, _,
        handleGetImages_ok env qp itemsRaw hscan⟩
    have h1 : x ∈ (List.insertionSort sortRel itemsRaw).drop
        ((paramPositive qp.page 1 - 1) * paramPositive qp.limit 10) :=
      List.take_subset _ _ hx
    have h2 : x ∈ List.insertionSort sortRel itemsRaw := List.drop_subset _ _ h1
    exact (List.perm_insertionSort sortRel itemsRaw).mem_iff.mp h2
  · intro it
    refine ⟨fun hne => ⟨fun url hurl => ?_, fun e he => ?_⟩, fun hk => ?_⟩
    · rw [signItem_eq, if_pos hne, hurl]
    · rw [signItem_eq, if_pos hne, he]
    · rw [signItem_eq, if_neg (by simp [hk])]

/-- A concrete item with a thumbnail whose signing succeeds. -/
def itemA : DBItem :=
  { image_key := some "images/1", thumbnail_key := some "thumbnails/images/1", url := none }

/-- A concrete item with a thumbnail whose signing fails. -/
def itemB : DBItem :=
  { image_key := some "images/2", thumbnail_key := some "thumbnails/images/2", url := none }

/-- A concrete item without a thumbnail. -/
def itemC : DBItem :=
  { image_key := some "images/3", thumbnail_key := none, url := none }

/-- A concrete list environment whose signer fails exactly on the key
thumbnails/images/2. -/
def envC8 : ListEnv :=
  { scanResult := .ok [itemA, itemB, itemC],
    presignGet := fun k _ =>
      if k = "thumbnails/images/2" then .error "sigfail"
      else .ok ("https://s/" ++ k) }

/-- Witness for per-item signing at concrete items: the thumbnail key
is preferred, a signing failure leaves the item unchanged and without
a url, and an item without thumbnail is signed by its image key. -/
theorem c8_list_item_signing_witness :
    (signItem envC8 itemA = { itemA with url := some "https://s/thumbnails/images/1" }) ∧
    (signItem envC8 itemB = itemB) ∧
    (signItem envC8 itemC = { itemC with url := some "https://s/images/3" }) := by
  have h := (c8_list_item_signing envC8 { page := none, limit := none }
    [itemA, itemB, itemC] rfl).2
  refine ⟨?_, ?_, ?_⟩
  · exact ((h itemA).1 (by decide)).1 _ rfl
  · exact ((h itemB).1 (by decide)).2 "sigfail" rfl
  · exact ((h itemC).1 (by decide)).1 _ rfl

/-- A raw query parameter that triggers the default: absent,
non-numeric, or numeric but not strictly positive. -/
def isDefaultedParam (o : Option String) : Bool :=
  match o with
  | none => true
  | some s =>
    match goAtoi s with
    | none => true
    | some v => decide (v ≤ 0)

/-- A defaulted raw parameter makes paramPositive keep the default. -/
theorem paramPositive_of_defaulted (o : Option String) (d : Nat)
    (h : isDefaultedParam o = true) : paramPositive o d = d := by
  match o with
  | none => rfl
  | some s =>
    by_cases hs : s = ""
    · simp [paramPositive, hs]
    · rcases ha : goAtoi s with _ | v
      · simp [paramPositive, hs, ha]
      · simp only [isDefaultedParam, ha, decide_eq_true_eq] at h
        simp only [paramPositive, hs, ha, if_neg hs]
        have hv : ¬ (v > 0) := by omega
        simp [hv]

/-- C10: a page or limit parameter that is absent, non-numeric or not
strictly positive is silently replaced by the default (page 1,
limit 10); the request still succeeds and the response echoes the
substituted values. -/
theorem c10_query_param_defaults (env : ListEnv) (qp : QueryParams)
    (itemsRaw : List DBItem) (hscan : env.scanResult = .ok itemsRaw)
    (hp : isDefaultedParam qp.page = true) (hl : isDefaultedParam qp.limit = true) :
    handleGetImages env qp
      = .success (((List.insertionSort sortRel itemsRaw).take 10).map (signItem env))
          itemsRaw.length 1 10 (decide (min 10 itemsRaw.length < itemsRaw.length)) := by
  rw [handleGetImages_ok env qp itemsRaw hscan,
    paramPositive_of_defaulted qp.page 1 hp,
    paramPositive_of_defaulted qp.limit 10 hl]
  norm_num

/-- The concrete scanned item of the defaulting witness. -/
def itemC10 : DBItem :=
  { image_key := some "images/7", thumbnail_key := none, url := none }

/-- A concrete one-item list environment for the defaulting witness. -/
def envC10 : ListEnv :=
  { scanResult := .ok [itemC10], presignGet := fun k _ => .ok k }

/-- Witness for parameter defaulting at a concrete request with a
non-positive page and a non-numeric limit: the response succeeds and
echoes page 1 and limit 10. -/
theorem c10_query_param_defaults_witness :
    handleGetImages envC10 { page := some "0", limit := some "abc" }
      = .success [{ itemC10 with url := some "images/7" }] 1 1 10 false := by
  have h := c10_query_param_defaults envC10 { page := some "0", limit := some "abc" }
    [itemC10] rfl (by decide) (by decide)
  simpa [itemC10, signItem, displayKeyOf, envC10] using h

/-- A present positive default keeps paramPositive positive. -/
theorem paramPositive_pos (o : Option String) (d : Nat) (hd : 0 < d) :
    0 < paramPositive o d := by
  match o with
  | none => simpa [paramPositive]
  | some s =>
    by_cases hs : s = ""
    · simpa [paramPositive, hs]
    · rcases ha : goAtoi s with _ | v
      · simpa [paramPositive, hs, ha]
      · simp only [paramPositive, if_neg hs, ha]
        by_cases hv : v > 0
        · simp only [if_pos hv]
          omega
        · simpa [if_neg hv]

/-- The 25 concrete metadata records keyed images/1 to images/25. -/
def items25 : List DBItem :=
  (List.range 25).map (fun i =>
    { image_key := some ("images/" ++ toString (i + 1)), thumbnail_key := none,
      url := none })

/-- A concrete list environment over the 25 records with an always
successful signer. -/
def env25 : ListEnv :=
  { scanResult := .ok items25, presignGet := fun k _ => .ok ("https://s/" ++ k) }

/-- C2: for every store state and request, List scans everything,
sorts descending by image key, answers the slice from (page-1)*limit
of length limit of that sorted sequence with hasMore tested as the
clamped end index against the total; on the 25 concrete records
keyed images/1 to images/25, page 2 with limit 10 returns the items
ranked 11 to 20 with hasMore true, page 3 returns 5 items with
hasMore false, and page 4 returns no items with hasMore false. -/
theorem c2_list_pagination :
    (∀ (env : ListEnv) (qp : QueryParams) (itemsRaw : List DBItem) (p l : Nat),
      env.scanResult = .ok itemsRaw →
      paramPositive qp.page 1 = p →
      paramPositive qp.limit 10 = l →
      (List.insertionSort sortRel itemsRaw).Perm itemsRaw ∧
      List.Sorted sortRel (List.insertionSort sortRel itemsRaw) ∧
      handleGetImages env qp
        = .success
            ((((List.insertionSort sortRel itemsRaw).drop ((p - 1) * l)).take l).map
              (signItem env))
            itemsRaw.length p l
            (decide (min (p * l) itemsRaw.length < itemsRaw.length))) ∧
    (handleGetImages env25 { page := some "2", limit := some "10" }
      = .success ((((List.insertionSort sortRel items25).drop 10).take 10).map
          (signItem env25)) 25 2 10 true ∧
      (((List.insertionSort sortRel items25).drop 10).take 10).length = 10) ∧
    (handleGetImages env25 { page := some "3", limit := some "10" }
      = .success ((((List.insertionSort sortRel items25).drop 20).take 10).map
          (signItem env25)) 25 3 10 false ∧
      (((List.insertionSort sortRel items25).drop 20).take 10).length = 5) ∧
    (handleGetImages env25 { page := some "4", limit := some "10" }
      = .success [] 25 4 10 false) := by
  refine ⟨?_, ⟨by decide, by decide⟩, ⟨by decide, by decide⟩, by decide⟩
  intro env qp itemsRaw p l hscan hp hl
  have hp1 : 0 < p := hp ▸ paramPositive_pos qp.page 1 (by omega)
  obtain ⟨n, rfl⟩ : ∃ n, p = n + 1 := ⟨p - 1, by omega⟩
  refine ⟨List.perm_insertionSort sortRel itemsRaw,
    List.sorted_insertionSort sortRel itemsRaw, ?_⟩
  rw [handleGetImages_ok env qp itemsRaw hscan, hp, hl]
  have harith : (n + 1 - 1) * l + l = (n + 1) * l := by
    simp [Nat.succ_mul]
  rw [harith]

/-- Witness for the pagination normal form at the concrete 25-record
store and the page 2, limit 10 request. -/
theorem c2_list_pagination_witness :
    (List.insertionSort sortRel items25).Perm items25 ∧
    List.Sorted sortRel (List.insertionSort sortRel items25) ∧
    handleGetImages env25 { page := some "2", limit := some "10" }
      = .success
          ((((List.insertionSort sortRel items25).drop ((2 - 1) * 10)).take 10).map
            (signItem env25))
          items25.length 2 10
          (decide (min (2 * 10) items25.length < items25.length)) :=
  c2_list_pagination.1 env25 { page := some "2", limit := some "10" } items25 2 10
    rfl (by decide) (by decide)

/-- The object-store puts a thumbnail run appends beyond the prior
trace: none on a failed byte computation, exactly the one derived-key
put of the computed bytes otherwise. -/
theorem generateAndUploadThumbnail_newPuts (env : Env) (w : World)
    (bucket key : String) (b : Bytes) :
    (generateAndUploadThumbnail env w bucket key b).2.s3Puts.drop w.s3Puts.length
      = match thumbnailBytesOf env.codec b with
        | .error _ => []
        | .ok buf =>
          [{ bucket := bucket, key := ("thumbnails/" ++ key), body := buf,
             contentType := "image/jpeg" }] := by
  rcases ht : thumbnailBytesOf env.codec b with e | buf
  · simp [generateAndUploadThumbnail, ht]
  · rcases hp : env.putObjectResult bucket ("thumbnails/" ++ key) buf "image/jpeg"
      with e | u
    · simp [generateAndUploadThumbnail, ht, hp, List.drop_left]
    · simp [generateAndUploadThumbnail, ht, hp, List.drop_left]

/-- C9: the thumbnail generator is deterministic: two runs with the
same codec functions on the same input bytes compute identical
thumbnail bytes and append identical object-store puts, whatever the
clock, the prior trace and the other oracles of each run are. -/
theorem c9_thumbnail_deterministic (e1 e2 : Env) (w1 w2 : World)
    (bucket key : String) (b : Bytes) (hc : e1.codec = e2.codec) :
    thumbnailBytesOf e1.codec b = thumbnailBytesOf e2.codec b ∧
    (generateAndUploadThumbnail e1 w1 bucket key b).2.s3Puts.drop w1.s3Puts.length
      = (generateAndUploadThumbnail e2 w2 bucket key b).2.s3Puts.drop w2.s3Puts.length := by
  constructor
  · rw [hc]
  · rw [generateAndUploadThumbnail_newPuts, generateAndUploadThumbnail_newPuts, hc]

/-- A second concrete environment sharing the codec of okEnv but with
a different clock and failing store oracles. -/
def okEnvAltClock : Env :=
  { okEnv with
    nowRFC3339 := "2027-05-05T05:05:05Z",
    getObject := fun _ _ => .error "x",
    putObjectResult := fun _ _ _ _ => .error "y" }

/-- A concrete non-empty prior trace. -/
def busyWorld : World :=
  { downloads := [("a", "b")],
    s3Puts := [{ bucket := "x", key := "y", body := [3], contentType := "t" }],
    metaPuts := [] }

/-- Witness for thumbnail determinism at concrete runs differing in
clock, prior trace and store outcomes but sharing the codec. -/
theorem c9_thumbnail_deterministic_witness :
    thumbnailBytesOf okEnv.codec [7] = thumbnailBytesOf okEnvAltClock.codec [7] ∧
    (generateAndUploadThumbnail okEnv emptyWorld "b" "images/1" [7]).2.s3Puts.drop
        emptyWorld.s3Puts.length
      = (generateAndUploadThumbnail okEnvAltClock busyWorld "b" "images/1" [7]).2.s3Puts.drop
          busyWorld.s3Puts.length :=
  c9_thumbnail_deterministic okEnv okEnvAltClock emptyWorld busyWorld "b" "images/1" [7] rfl
